import Mathlib

/-!
Shallow embedding of the seat-allocation and booking core of the Haramain
bus-ticket platform (server/storage.ts `DatabaseStorage`, server/routes.ts
request layer, and the client `SeatSelection` pricing code), together with
theorems settling the specification claims about it.

Monetary amounts (stored as SQL decimals / JS floats of at most two decimal
places) are modelled as exact rationals; timestamps as integers (epoch
milliseconds); table rows as Lean structures and tables as lists of rows.
-/

namespace Haramain

/-- Row of the `users` table (fields relevant to the storage operations). -/
structure User where
  id : String
  email : String
deriving Repr, DecidableEq

/-- Row of the `buses` table: `capacity` is the total addressable seat count. -/
structure Bus where
  id : Nat
  capacity : Nat
deriving Repr, DecidableEq

/-- Row of the `routes` table. -/
structure Route where
  id : Nat
  originCity : String
  destinationCity : String
  isActive : Bool
deriving Repr, DecidableEq

/-- Row of the `trips` table. -/
structure Trip where
  id : Nat
  routeId : Nat
  busId : Nat
  departureTime : Int
  price : Rat
  status : String
deriving Repr, DecidableEq

/-- Row of the `bookings` table. -/
structure Booking where
  id : Nat
  userId : String
  tripId : Nat
  bookingReference : String
  totalAmount : Rat
  discountAmount : Rat
  finalAmount : Rat
  promoCode : Option String
  paymentGatewayId : Option String
  paymentMethod : Option String
  status : String
deriving Repr, DecidableEq

/-- Row of the `bookedSeats` table: one Seat Commitment. -/
structure BookedSeat where
  bookingId : Nat
  tripId : Nat
  seatNumber : String
  passengerName : String
deriving Repr, DecidableEq

/-- Row of the `promotions` table. -/
structure Promotion where
  id : Nat
  promoCode : String
  discountType : String
  discountValue : Rat
  startDate : Int
  endDate : Int
  usageLimit : Option Nat
  usageCount : Nat
  isActive : Bool
deriving Repr, DecidableEq

/-- Row of the `socialLinks` table. -/
structure SocialLink where
  id : Nat
  platform : String
  url : String
  isVisible : Bool
deriving Repr, DecidableEq

/-- Payload accepted by `DatabaseStorage.createBooking` (the parsed
`insertBookingSchema` data: the amounts are computed client-side and
persisted unchecked by the server). -/
structure InsertBooking where
  userId : String
  tripId : Nat
  totalAmount : Rat
  discountAmount : Rat
  finalAmount : Rat
  promoCode : Option String
deriving Repr, DecidableEq

/-- One entry of the `selectedSeats` argument of `createBooking`. -/
structure SeatSelection where
  seatNumber : String
  passengerName : String
deriving Repr, DecidableEq

/-- The persistent database state: one list per table, plus the counter that
stands for the id generation the database performs on insert. -/
structure DB where
  users : List User
  buses : List Bus
  routes : List Route
  trips : List Trip
  bookings : List Booking
  bookedSeats : List BookedSeat
  promotions : List Promotion
  socialLinks : List SocialLink
  nextBookingId : Nat
deriving Repr, DecidableEq

/-- Left-pad a numeral to two digits, as `String(n).padStart(2, '0')` does
for the month and day components of the booking reference. -/
def pad2 (n : Nat) : String :=
  if n < 10 then "0" ++ toString n else toString n

/-- Booking reference generated by `DatabaseStorage.createBooking`:
`HRM-` plus year, zero-padded month and day, `-`, and the uppercased first
six characters of a fresh random UUID (passed in here as `suffix`, since the
random draw is an input of the model). -/
def mkBookingReference (year month day : Nat) (suffix : String) : String :=
  "HRM-" ++ toString year ++ pad2 month ++ pad2 day ++ "-" ++ suffix

/-- The booking row built and inserted by `DatabaseStorage.createBooking`:
note the hard-coded `status := "confirmed"` (source comment: Auto-confirm
for now). -/
def newBookingRecord (db : DB) (data : InsertBooking) (year month day : Nat)
    (suffix : String) : Booking :=
  { id := db.nextBookingId
    userId := data.userId
    tripId := data.tripId
    bookingReference := mkBookingReference year month day suffix
    totalAmount := data.totalAmount
    discountAmount := data.discountAmount
    finalAmount := data.finalAmount
    promoCode := data.promoCode
    paymentGatewayId := none
    paymentMethod := none
    status := "confirmed" }

/-- The `bookedSeats` rows inserted by `DatabaseStorage.createBooking` for
the selected seats. -/
def newSeatRows (bookingId : Nat) (tripId : Nat) (seats : List SeatSelection) :
    List BookedSeat :=
  seats.map fun s =>
    { bookingId := bookingId
      tripId := tripId
      seatNumber := s.seatNumber
      passengerName := s.passengerName }

/-- Whether a booking with the given reference already exists: the check
the database performs for the UNIQUE constraint that shared/schema.ts
declares on `booking_reference` (`varchar("booking_reference").unique()`). -/
def referenceTaken (db : DB) (ref : String) : Bool :=
  db.bookings.any fun b => b.bookingReference == ref

/-- DatabaseStorage.createBooking: generates the reference, inserts the
booking row (auto-confirmed), then inserts one `bookedSeats` row per
selected seat. The `bookings` insert is rejected by the database when the
generated reference collides with an existing row (UNIQUE constraint on
`booking_reference`); nothing is persisted then and the route answers 500.
There is no check that the requested seats are free — `booked_seats` has no
such constraint — and no transaction around the two inserts. Appending the
empty list models the source's skipping of the second insert when no seats
are given. -/
def createBooking (db : DB) (data : InsertBooking) (seats : List SeatSelection)
    (year month day : Nat) (suffix : String) : Except String Booking × DB :=
  if referenceTaken db (newBookingRecord db data year month day suffix).bookingReference then
    (Except.error "duplicate key value violates unique constraint", db)
  else
    (Except.ok (newBookingRecord db data year month day suffix),
     { db with
        bookings := db.bookings ++ [newBookingRecord db data year month day suffix]
        bookedSeats := db.bookedSeats ++
          newSeatRows (newBookingRecord db data year month day suffix).id
            data.tripId seats
        nextBookingId := db.nextBookingId + 1 })

/-- Which of the two sequential inserts of `createBooking` the storage layer
rejects, if any. The source awaits `db.insert(bookings)` and then
`db.insert(bookedSeats)` with no surrounding transaction, so either await
can reject independently. -/
inductive DbFault where
  | bookingInsertFails
  | seatsInsertFails
  | noFault
deriving Repr, DecidableEq

/-- DatabaseStorage.createBooking with the storage layer's possible
rejections made explicit. A reference collision rejects the first insert
(UNIQUE constraint) and nothing is written; when the `bookings` insert
rejects for another storage fault, nothing has been written either; when
the `bookedSeats` insert rejects, the booking row has already been
committed and stays (no rollback in the source). When no seats are selected
the second insert is not attempted. -/
def createBookingFallible (db : DB) (data : InsertBooking)
    (seats : List SeatSelection) (year month day : Nat) (suffix : String)
    (fault : DbFault) : Except String Booking × DB :=
  if referenceTaken db (newBookingRecord db data year month day suffix).bookingReference then
    (Except.error "duplicate key value violates unique constraint", db)
  else
    match fault with
    | DbFault.bookingInsertFails =>
        (Except.error "Failed to create booking", db)
    | DbFault.seatsInsertFails =>
        let booking := newBookingRecord db data year month day suffix
        let db1 := { db with
          bookings := db.bookings ++ [booking]
          nextBookingId := db.nextBookingId + 1 }
        if seats.isEmpty then (Except.ok booking, db1)
        else (Except.error "Failed to create booking", db1)
    | DbFault.noFault => createBooking db data seats year month day suffix

/-- DatabaseStorage.confirmBookingPayment: updates every booking matching
the id and owner to status confirmed with the payment gateway id and
method stripe, with no check of the booking's current status; throws when
no row matched. -/
def confirmBookingPayment (db : DB) (bookingId : Nat) (userId : String)
    (paymentGatewayId : String) : Except String Booking × DB :=
  let upd := fun (b : Booking) =>
    { b with
        status := "confirmed"
        paymentGatewayId := some paymentGatewayId
        paymentMethod := some "stripe" }
  match db.bookings.find? (fun b => b.id == bookingId && b.userId == userId) with
  | none => (Except.error "Booking not found or access denied", db)
  | some b =>
      (Except.ok (upd b),
       { db with
          bookings := db.bookings.map fun x =>
            if x.id == bookingId && x.userId == userId then upd x else x })

/-- DatabaseStorage.getTripSeats: all `bookedSeats` rows of the trip. -/
def getTripSeats (db : DB) (tripId : Nat) : List BookedSeat :=
  db.bookedSeats.filter fun s => s.tripId == tripId

/-- Number of `bookedSeats` rows of a trip, as computed by the count
subquery of `DatabaseStorage.searchTrips`. -/
def bookedSeatCount (db : DB) (tripId : Nat) : Nat :=
  (db.bookedSeats.filter fun s => s.tripId == tripId).length

/-- One element of the `searchTrips` result. -/
structure TripSummary where
  trip : Trip
  route : Route
  bus : Bus
  availableSeats : Int
deriving Repr, DecidableEq

/-- Milliseconds in one day: `searchTrips` widens the requested date to the
window from the date to the date plus one day. -/
def oneDayMs : Int := 86400000

/-- The where-clause of the `searchTrips` query for one joined row: route
endpoints match, the departure lies in the inclusive one-day window, and
the trip is scheduled. -/
def tripFilter (originCity destinationCity : String) (date : Int) (r : Route)
    (t : Trip) : Bool :=
  r.originCity == originCity && r.destinationCity == destinationCity &&
  decide (date ≤ t.departureTime) &&
  decide (t.departureTime ≤ date + oneDayMs) &&
  t.status == "scheduled"

/-- The summary `searchTrips` produces for one trip, if the trip passes the
route/date/status filter of the query: the inner joins resolve the trip's
route and bus, and `availableSeats` is the bus capacity minus the count of
`bookedSeats` rows, with no clamping. -/
def tripSummaryOf (db : DB) (originCity destinationCity : String) (date : Int)
    (t : Trip) : Option TripSummary :=
  match db.routes.find? fun r => r.id == t.routeId with
  | none => none
  | some r =>
    match db.buses.find? fun b => b.id == t.busId with
    | none => none
    | some b =>
      match tripFilter originCity destinationCity date r t with
      | true =>
          some { trip := t, route := r, bus := b
                 availableSeats :=
                   (b.capacity : Int) - (bookedSeatCount db t.id : Int) }
      | false => none

/-- DatabaseStorage.searchTrips: scheduled trips on the requested route
departing within the day window, each annotated with `availableSeats`. -/
def searchTrips (db : DB) (originCity destinationCity : String) (date : Int) :
    List TripSummary :=
  db.trips.filterMap (tripSummaryOf db originCity destinationCity date)

/-- The row filter of the `validatePromoCode` query: code matches, active,
and the inclusive validity window contains the current time. -/
def promoMatch (promoCode : String) (now : Int) (p : Promotion) : Bool :=
  p.promoCode == promoCode && p.isActive &&
  decide (p.startDate ≤ now) && decide (now ≤ p.endDate)

/-- DatabaseStorage.validatePromoCode: the first promotion passing the
filter; `none` otherwise. Usage limits are never consulted. -/
def validatePromoCode (db : DB) (promoCode : String) (now : Int) :
    Option Promotion :=
  db.promotions.find? (promoMatch promoCode now)

/-- The POST /api/promotions/validate handler: a found promotion is returned
as is; every miss becomes the single 404 response Invalid promo code. -/
def validatePromoRoute (db : DB) (promoCode : String) (now : Int) :
    Except (Nat × String) Promotion :=
  match validatePromoCode db promoCode now with
  | none => Except.error (404, "Invalid promo code")
  | some p => Except.ok p

/-- Service fee the client adds to every booking (SeatSelection.tsx,
`const serviceFee = 10`). -/
def serviceFee : Rat := 10

/-- Discount computed by the client when a promo code validates
(`validatePromoMutation.onSuccess`): the raw amount is a percentage of the
trip price or the fixed value, then clamped above by the trip price via
`Math.min`; there is no lower clamp. -/
def promoDiscount (promotion : Promotion) (tripPrice : Rat) : Rat :=
  let discountAmount :=
    if promotion.discountType = "percentage" then
      tripPrice * promotion.discountValue / 100
    else promotion.discountValue
  min discountAmount tripPrice

/-- The three amounts the client computes in `handleBooking` and submits:
total is the ticket price plus the service fee (the UI limits a booking to a
single seat), final is total minus the discount, with no `max 0` clamp. -/
structure BookingAmounts where
  totalAmount : Rat
  discountAmount : Rat
  finalAmount : Rat
deriving Repr, DecidableEq

/-- Amount computation of `handleBooking` in SeatSelection.tsx. -/
def handleBookingAmounts (tripPrice discount : Rat) : BookingAmounts :=
  let totalAmount := tripPrice + serviceFee
  { totalAmount := totalAmount
    discountAmount := discount
    finalAmount := totalAmount - discount }

/-- The booking payload the client builds in `handleBooking` and the
POST /api/bookings handler passes to the storage layer (the server adds the
authenticated user id and persists the client-computed amounts unchecked). -/
def clientBookingData (userId : String) (tripId : Nat)
    (tripPrice discount : Rat) (promoCode : Option String) : InsertBooking :=
  let a := handleBookingAmounts tripPrice discount
  { userId := userId
    tripId := tripId
    totalAmount := a.totalAmount
    discountAmount := a.discountAmount
    finalAmount := a.finalAmount
    promoCode := promoCode }

/-- DatabaseStorage.upsertUser: insert, or update in place on id conflict. -/
def upsertUser (db : DB) (u : User) : DB :=
  if db.users.any fun x => x.id == u.id then
    { db with users := db.users.map fun x => if x.id == u.id then u else x }
  else { db with users := db.users ++ [u] }

/-- The operations exposed by the storage layer (`IStorage`). Read-only
operations carry their arguments but do not change the state; the create
operations append the row the database materializes (its generated id is
part of the operation, like the random reference suffix). -/
inductive StorageOp where
  | getUser (id : String)
  | upsertUser (u : User)
  | getRoutes
  | createRoute (r : Route)
  | getBuses
  | createBus (b : Bus)
  | searchTrips (originCity destinationCity : String) (date : Int)
  | getTripSeats (tripId : Nat)
  | createTrip (t : Trip)
  | getUserBookings (userId : String)
  | createBooking (data : InsertBooking) (seats : List SeatSelection)
      (year month day : Nat) (suffix : String)
  | getBookingById (bookingId : Nat) (userId : String)
  | getAllBookings
  | confirmBookingPayment (bookingId : Nat) (userId : String)
      (paymentGatewayId : String)
  | validatePromoCode (promoCode : String) (now : Int)
  | createPromotion (p : Promotion)
  | getSocialLinks
  | getAdminStats
deriving Repr, DecidableEq

/-- State transition of one storage operation. -/
def applyOp (db : DB) (op : StorageOp) : DB :=
  match op with
  | StorageOp.getUser _ => db
  | StorageOp.upsertUser u => upsertUser db u
  | StorageOp.getRoutes => db
  | StorageOp.createRoute r => { db with routes := db.routes ++ [r] }
  | StorageOp.getBuses => db
  | StorageOp.createBus b => { db with buses := db.buses ++ [b] }
  | StorageOp.searchTrips _ _ _ => db
  | StorageOp.getTripSeats _ => db
  | StorageOp.createTrip t => { db with trips := db.trips ++ [t] }
  | StorageOp.getUserBookings _ => db
  | StorageOp.createBooking data seats y m d suffix =>
      (createBooking db data seats y m d suffix).2
  | StorageOp.getBookingById _ _ => db
  | StorageOp.getAllBookings => db
  | StorageOp.confirmBookingPayment bid uid pg =>
      (confirmBookingPayment db bid uid pg).2
  | StorageOp.validatePromoCode _ _ => db
  | StorageOp.createPromotion p => { db with promotions := db.promotions ++ [p] }
  | StorageOp.getSocialLinks => db
  | StorageOp.getAdminStats => db

/-- State after a sequence of storage operations. -/
def applyOps (db : DB) : List StorageOp → DB
  | [] => db
  | op :: rest => applyOps (applyOp db op) rest

/-- The Seat Commitments of a seat of a trip whose owning booking is in a
non-cancelled (`pending` or `confirmed`) status. -/
def activeCommitments (db : DB) (tripId : Nat) (seat : String) :
    List BookedSeat :=
  db.bookedSeats.filter fun s =>
    s.tripId == tripId && s.seatNumber == seat &&
    db.bookings.any fun b =>
      b.id == s.bookingId && (b.status == "pending" || b.status == "confirmed")

/-- The no-double-booking invariant of the specification: each seat of each
trip is committed to at most one non-cancelled booking. -/
def noDoubleBooking (db : DB) : Prop :=
  ∀ tripId seat, (activeCommitments db tripId seat).length ≤ 1

/-- Truth value of an `Except` being a success. -/
def exceptIsOk {ε α : Type} : Except ε α → Bool
  | Except.ok _ => true
  | Except.error _ => false

deriving instance DecidableEq for Except

/-! Concrete data used by the witnesses and counterexamples: one route, a
40-seat bus with a scheduled trip, a 1-seat bus with a scheduled trip, and
four promotions (a valid 20 percent code, an expired one, one past its usage
limit, and one with a negative value). -/

def busW : Bus := { id := 1, capacity := 40 }

def busSmall : Bus := { id := 2, capacity := 1 }

def routeW : Route :=
  { id := 1, originCity := "riyadh", destinationCity := "jeddah"
    isActive := true }

def tripW : Trip :=
  { id := 1, routeId := 1, busId := 1, departureTime := 1000, price := 100
    status := "scheduled" }

def tripSmall : Trip :=
  { id := 2, routeId := 1, busId := 2, departureTime := 1000, price := 100
    status := "scheduled" }

def pSave : Promotion :=
  { id := 1, promoCode := "SAVE20", discountType := "percentage"
    discountValue := 20, startDate := 0, endDate := 100000
    usageLimit := none, usageCount := 0, isActive := true }

def pExpired : Promotion :=
  { id := 2, promoCode := "OLD20", discountType := "percentage"
    discountValue := 20, startDate := 0, endDate := 10
    usageLimit := none, usageCount := 0, isActive := true }

def pOverused : Promotion :=
  { id := 3, promoCode := "MAX1", discountType := "fixed_amount"
    discountValue := 5, startDate := 0, endDate := 100000
    usageLimit := some 1, usageCount := 5, isActive := true }

def pNeg : Promotion :=
  { id := 4, promoCode := "NEG50", discountType := "percentage"
    discountValue := -50, startDate := 0, endDate := 100000
    usageLimit := none, usageCount := 0, isActive := true }

def dbW : DB :=
  { users := []
    buses := [busW, busSmall]
    routes := [routeW]
    trips := [tripW, tripSmall]
    bookings := []
    bookedSeats := []
    promotions := [pSave, pExpired, pOverused, pNeg]
    socialLinks := []
    nextBookingId := 1 }

/-- Booking payload of user u1 for the one-seat trip. -/
def dataS1 : InsertBooking :=
  { userId := "u1", tripId := 2, totalAmount := 110, discountAmount := 0
    finalAmount := 110, promoCode := none }

/-- Booking payload of user u2 for the same one-seat trip. -/
def dataS2 : InsertBooking :=
  { userId := "u2", tripId := 2, totalAmount := 110, discountAmount := 0
    finalAmount := 110, promoCode := none }

def seatA1Alice : SeatSelection :=
  { seatNumber := "A1", passengerName := "Alice" }

def seatA1Bob : SeatSelection :=
  { seatNumber := "A1", passengerName := "Bob" }

/-- First booking: u1 books seat A1 of the one-seat trip. -/
def bW1 : Booking := newBookingRecord dbW dataS1 2025 10 11 "AAAAAA"

def dbB1 : DB :=
  (createBooking dbW dataS1 [seatA1Alice] 2025 10 11 "AAAAAA").2

/-- Second booking: u2 books the same seat A1 of the same trip (with a
fresh random suffix, so the reference constraint does not fire). -/
def bW2 : Booking := newBookingRecord dbB1 dataS2 2025 10 11 "BBBBBB"

def dbB2 : DB :=
  (createBooking dbB1 dataS2 [seatA1Bob] 2025 10 11 "BBBBBB").2

/-- Outcome of a `createBooking` call whose second insert (the
`bookedSeats` insert) is rejected by the storage layer. -/
def c2res : Except String Booking × DB :=
  createBookingFallible dbW dataS1 [seatA1Alice] 2025 10 11 "AAAAAA"
    DbFault.seatsInsertFails

/-- C1. The no-double-booking invariant fails on a state reached by two
public `createBooking` calls: both bookings for seat A1 of trip 2 succeed
(the code never checks existing seat rows, and `booked_seats` carries no
uniqueness constraint), both are non-cancelled, and the seat carries two
active commitments. -/
theorem C1_invariant_violated :
    (createBooking dbW dataS1 [seatA1Alice] 2025 10 11 "AAAAAA").1 =
      Except.ok bW1 ∧
    (createBooking dbB1 dataS2 [seatA1Bob] 2025 10 11 "BBBBBB").1 =
      Except.ok bW2 ∧
    bW1 ∈ dbB2.bookings ∧ bW2 ∈ dbB2.bookings ∧ bW1.id ≠ bW2.id ∧
    bW1.status = "confirmed" ∧ bW2.status = "confirmed" ∧
    (activeCommitments dbB2 2 "A1").length = 2 ∧
    ¬ noDoubleBooking dbB2 := by
  refine ⟨by decide, by decide, by decide, by decide, by decide, by decide,
    by decide, by decide, ?_⟩
  intro hinv
  exact absurd (hinv 2 "A1") (by decide)

/-- C2. `createBooking` is not atomic: when the `bookedSeats` insert is
rejected after the `bookings` insert committed, the call returns an error
yet the (auto-confirmed) booking row persists, with no seat rows — an
orphan booking the claim forbids. -/
theorem C2_not_atomic :
    c2res.1 = Except.error "Failed to create booking" ∧
    c2res.2.bookings = dbW.bookings ++ [bW1] ∧
    c2res.2.bookedSeats = dbW.bookedSeats := by
  decide

/-- C3. A successful `createBooking` persists and returns the booking with
status `confirmed` (the source auto-confirms at creation), not `pending` as
the claim and the repository's own documentation state. -/
theorem C3_auto_confirmed :
    bW1.status = "confirmed" ∧ bW1 ∈ dbB1.bookings ∧
    ¬ bW1.status = "pending" := by
  decide

/-- C4 (amended). `confirmBookingPayment` fails with the not-found error
and leaves the state unchanged when no booking with the given id belongs to
the given owner; when one does, it succeeds unconditionally — with no check
of the booking's current status, so there is no `InvalidTransition` — and
returns the booking with status `confirmed` and the payment reference
stored; the seat rows are never touched. -/
theorem C4_confirm_payment (db : DB) (bid : Nat) (uid pg : String) :
    (db.bookings.find? (fun b => b.id == bid && b.userId == uid) = none →
       (confirmBookingPayment db bid uid pg).1 =
         Except.error "Booking not found or access denied" ∧
       (confirmBookingPayment db bid uid pg).2 = db) ∧
    (∀ b, db.bookings.find? (fun x => x.id == bid && x.userId == uid) = some b →
       (confirmBookingPayment db bid uid pg).1 =
         Except.ok { b with
                      status := "confirmed",
                      paymentGatewayId := some pg,
                      paymentMethod := some "stripe" }) ∧
    (confirmBookingPayment db bid uid pg).2.bookedSeats = db.bookedSeats := by
  refine ⟨?_, ?_, ?_⟩
  · intro h
    simp [confirmBookingPayment, h]
  · intro b h
    simp [confirmBookingPayment, h]
  · cases h : db.bookings.find? fun b => b.id == bid && b.userId == uid <;>
      simp [confirmBookingPayment, h]

/-- C4 witness: the found-booking case of `C4_confirm_payment` at a concrete
state, hypothesis discharged by evaluation. -/
theorem C4_confirm_payment_witness :
    (confirmBookingPayment dbB1 1 "u1" "pay_2").1 =
      Except.ok { bW1 with
                   status := "confirmed",
                   paymentGatewayId := some "pay_2",
                   paymentMethod := some "stripe" } :=
  (C4_confirm_payment dbB1 1 "u1" "pay_2").2.1 bW1 (by decide)

/-- C4 counterexample: the booking is already `confirmed`, yet
`confirmBookingPayment` succeeds instead of failing with
`InvalidTransition` as the claim requires. -/
theorem C4_counterexample :
    bW1 ∈ dbB1.bookings ∧ bW1.status = "confirmed" ∧
    exceptIsOk (confirmBookingPayment dbB1 1 "u1" "pay_2").1 = true := by
  decide

/-- C5 (amended). Promo validation succeeds, returning a stored promotion
matching the code that is active and whose inclusive validity window
contains the evaluation time, exactly when such a promotion exists; every
failure is the single generic 404 Invalid promo code response — there is no
distinct `Expired` failure and usage limits are never checked. -/
theorem C5_promo_validation (db : DB) (code : String) (now : Int) :
    ((∃ p, validatePromoRoute db code now = Except.ok p) ↔
      ∃ p ∈ db.promotions, p.promoCode = code ∧ p.isActive = true ∧
        p.startDate ≤ now ∧ now ≤ p.endDate) ∧
    (∀ p, validatePromoRoute db code now = Except.ok p →
      p ∈ db.promotions ∧ p.promoCode = code ∧ p.isActive = true ∧
        p.startDate ≤ now ∧ now ≤ p.endDate) ∧
    (∀ e, validatePromoRoute db code now = Except.error e →
      e = (404, "Invalid promo code")) := by
  have hpred : ∀ p : Promotion,
      promoMatch code now p = true ↔
      (p.promoCode = code ∧ p.isActive = true ∧ p.startDate ≤ now ∧
        now ≤ p.endDate) := by
    intro p
    simp [promoMatch, and_assoc]
  have hok : ∀ p, validatePromoRoute db code now = Except.ok p →
      p ∈ db.promotions ∧ p.promoCode = code ∧ p.isActive = true ∧
        p.startDate ≤ now ∧ now ≤ p.endDate := by
    intro p hp
    unfold validatePromoRoute at hp
    cases h : validatePromoCode db code now with
    | none => rw [h] at hp; cases hp
    | some q =>
        rw [h] at hp
        cases hp
        unfold validatePromoCode at h
        exact ⟨List.mem_of_find?_eq_some h, (hpred p).mp (List.find?_some h)⟩
  refine ⟨⟨?_, ?_⟩, hok, ?_⟩
  · rintro ⟨p, hp⟩
    exact ⟨p, (hok p hp).1, (hok p hp).2⟩
  · rintro ⟨p, hmem, hprop⟩
    unfold validatePromoRoute
    cases h : validatePromoCode db code now with
    | some q => exact ⟨q, rfl⟩
    | none =>
        exfalso
        unfold validatePromoCode at h
        rw [List.find?_eq_none] at h
        exact (h p hmem) ((hpred p).mpr hprop)
  · intro e he
    unfold validatePromoRoute at he
    cases h : validatePromoCode db code now with
    | none => rw [h] at he; cases he; rfl
    | some q => rw [h] at he; cases he

/-- C5 witness: `SAVE20` validates at time 50 and the theorem yields its
stored properties; hypothesis discharged by evaluation. -/
theorem C5_promo_validation_witness :
    validatePromoRoute dbW "SAVE20" 50 = Except.ok pSave ∧
    pSave ∈ dbW.promotions ∧ pSave.promoCode = "SAVE20" ∧
    pSave.isActive = true ∧ pSave.startDate ≤ 50 ∧ 50 ≤ pSave.endDate :=
  ⟨by decide, (C5_promo_validation dbW "SAVE20" 50).2.1 pSave (by decide)⟩

/-- C5 counterexample: an expired code fails with the same generic 404
not-found response as an unknown code (no `Expired` failure exists), and a
promotion far past its usage limit still validates successfully (no
`UsageExceeded` failure exists). -/
theorem C5_counterexample :
    pExpired.isActive = true ∧ pExpired.endDate < 50 ∧
    validatePromoRoute dbW "OLD20" 50 =
      Except.error (404, "Invalid promo code") ∧
    validatePromoRoute dbW "NOCODE" 50 =
      Except.error (404, "Invalid promo code") ∧
    pOverused.usageLimit = some 1 ∧ pOverused.usageCount = 5 ∧
    validatePromoRoute dbW "MAX1" 50 = Except.ok pOverused := by
  decide

/-- C6 (amended). The totalAmount persisted for a booking created through
the client flow is the trip's list price plus the fixed 10 SAR service fee
(for the single seat the UI permits); the server stores the client-computed
amount unchecked. -/
theorem C6_total_amount (db : DB) (u : String) (t : Nat)
    (price discount : Rat) (pc : Option String) (seats : List SeatSelection)
    (y m d : Nat) (suffix : String) (b : Booking)
    (hok : (createBooking db (clientBookingData u t price discount pc) seats
        y m d suffix).1 = Except.ok b) :
    b.totalAmount = price + serviceFee := by
  unfold createBooking at hok
  split at hok
  · cases hok
  · cases hok
    rfl

/-- Booking row created through the client flow at list price 100 with one
seat and no discount. -/
def c6booking : Booking :=
  newBookingRecord dbW (clientBookingData "u1" 1 100 0 none) 2025 10 11
    "CCCCCC"

/-- C6 witness: the client-flow booking at price 100 succeeds and the
theorem yields its totalAmount; the hypothesis is discharged by
evaluation. -/
theorem C6_total_amount_witness :
    (createBooking dbW (clientBookingData "u1" 1 100 0 none) [seatA1Alice]
        2025 10 11 "CCCCCC").1 = Except.ok c6booking ∧
    c6booking.totalAmount = (100 : Rat) + serviceFee :=
  ⟨rfl, C6_total_amount dbW "u1" 1 100 0 none [seatA1Alice] 2025 10 11
    "CCCCCC" c6booking rfl⟩

/-- C6 counterexample: with list price 100 and exactly one seat, the
persisted totalAmount is 110, not price times seat count = 100. -/
theorem C6_counterexample :
    (createBooking dbW (clientBookingData "u1" 1 100 0 none) [seatA1Alice]
        2025 10 11 "CCCCCC").1 = Except.ok c6booking ∧
    tripW.price = 100 ∧ [seatA1Alice].length = 1 ∧
    c6booking.totalAmount = 110 ∧
    ¬ c6booking.totalAmount = tripW.price * 1 := by
  refine ⟨rfl, rfl, rfl, ?_, ?_⟩
  · show (100 : Rat) + serviceFee = 110
    norm_num [serviceFee]
  · show ¬ (100 : Rat) + serviceFee = (100 : Rat) * 1
    norm_num [serviceFee]

/-- C7 (amended). The client discount is clamped above by the trip price
(hence never exceeds the totalAmount, which adds the positive service fee),
a non-percentage discount is exactly min(value, price), a percentage
discount with nonnegative stored value is nonnegative — but there is no
lower clamp at 0, so a negative stored value produces a negative discount —
and finalAmount equals max(0, totalAmount − discount) (indeed it always
stays at least the service fee above 0). -/
theorem C7_pricing (p : Promotion) (price : Rat) (hp : 0 ≤ price) :
    promoDiscount p price ≤ price ∧
    (p.discountType = "percentage" → 0 ≤ p.discountValue →
      0 ≤ promoDiscount p price) ∧
    (¬ p.discountType = "percentage" →
      promoDiscount p price = min p.discountValue price) ∧
    (handleBookingAmounts price (promoDiscount p price)).finalAmount =
      max 0 ((handleBookingAmounts price (promoDiscount p price)).totalAmount -
        (handleBookingAmounts price (promoDiscount p price)).discountAmount) ∧
    0 < (handleBookingAmounts price (promoDiscount p price)).finalAmount ∧
    promoDiscount p price ≤
      (handleBookingAmounts price (promoDiscount p price)).totalAmount := by
  have hle : promoDiscount p price ≤ price := min_le_right _ _
  have hfee : serviceFee = 10 := rfl
  refine ⟨hle, ?_, ?_, ?_, ?_, ?_⟩
  · intro htype hval
    unfold promoDiscount
    rw [if_pos htype]
    exact le_min (div_nonneg (mul_nonneg hp hval) (by norm_num)) hp
  · intro htype
    unfold promoDiscount
    rw [if_neg htype]
  · show price + serviceFee - promoDiscount p price =
      max 0 (price + serviceFee - promoDiscount p price)
    rw [max_eq_right]
    rw [hfee]
    linarith
  · show 0 < price + serviceFee - promoDiscount p price
    rw [hfee]
    linarith
  · show promoDiscount p price ≤ price + serviceFee
    rw [hfee]
    linarith

/-- C7 witness: the SAVE20 percentage promotion at price 100, hypothesis
discharged numerically. -/
theorem C7_pricing_witness :
    (0 : Rat) ≤ 100 ∧ promoDiscount pSave 100 ≤ 100 ∧
    0 < (handleBookingAmounts 100 (promoDiscount pSave 100)).finalAmount :=
  ⟨by norm_num, (C7_pricing pSave 100 (by norm_num)).1,
   (C7_pricing pSave 100 (by norm_num)).2.2.2.2.1⟩

/-- C7 counterexample: a percentage promotion with stored value −50 yields
a negative discount at price 100 — the claimed lower clamp at 0 does not
exist in the code. -/
theorem C7_counterexample :
    pNeg.discountType = "percentage" ∧
    promoDiscount pNeg 100 = -50 ∧ promoDiscount pNeg 100 < 0 := by
  have hval : promoDiscount pNeg 100 = -50 := by
    unfold promoDiscount
    rw [if_pos (show pNeg.discountType = "percentage" from rfl)]
    show min ((100 : Rat) * (-50 : Rat) / 100) 100 = -50
    rw [show (100 : Rat) * (-50 : Rat) / 100 = -50 by norm_num]
    exact min_eq_left (by norm_num)
  refine ⟨rfl, hval, ?_⟩
  rw [hval]
  norm_num

/-- C8 (amended). Every trip summary returned by `searchTrips` carries
availableSeats equal to the bus capacity minus the number of bookedSeats
rows of the trip; the value is nonnegative whenever the row count does not
exceed the capacity, but the code applies no clamp, so over-commitment
drives it negative. -/
theorem C8_available_seats (db : DB) (o d : String) (date : Int)
    (ts : TripSummary) (h : ts ∈ searchTrips db o d date) :
    ts.availableSeats =
      (ts.bus.capacity : Int) - (bookedSeatCount db ts.trip.id : Int) ∧
    (bookedSeatCount db ts.trip.id ≤ ts.bus.capacity →
      0 ≤ ts.availableSeats) := by
  rcases List.mem_filterMap.mp h with ⟨t, ht, heq⟩
  unfold tripSummaryOf at heq
  split at heq
  · cases heq
  · split at heq
    · cases heq
    · split at heq
      · cases heq
        refine ⟨rfl, fun hcap => ?_⟩
        simp only at hcap ⊢
        omega
      · cases heq

/-- Summary returned for the 40-seat trip on the empty initial state. -/
def tsW : TripSummary :=
  { trip := tripW, route := routeW, bus := busW, availableSeats := 40 }

/-- C8 witness: the 40-seat trip with no bookings is returned with its
availableSeats satisfying the capacity-minus-count equation; the
membership hypothesis is discharged by evaluation. -/
theorem C8_available_seats_witness :
    tsW ∈ searchTrips dbW "riyadh" "jeddah" 0 ∧
    tsW.availableSeats =
      (tsW.bus.capacity : Int) - (bookedSeatCount dbW tsW.trip.id : Int) :=
  ⟨by decide, (C8_available_seats dbW "riyadh" "jeddah" 0 tsW (by decide)).1⟩

/-- Summary returned for the over-committed one-seat trip. -/
def tsNeg : TripSummary :=
  { trip := tripSmall, route := routeW, bus := busSmall, availableSeats := -1 }

/-- C8 counterexample: after the two unchecked bookings of seat A1 of the
one-seat trip, `searchTrips` reports availableSeats = −1 — the claimed
clamp to 0 does not exist in the code. -/
theorem C8_counterexample :
    tsNeg ∈ searchTrips dbB2 "riyadh" "jeddah" 0 ∧
    tsNeg.availableSeats < 0 := by
  decide

/-- Pairwise distinctness of the persisted booking references: the
invariant maintained by the UNIQUE constraint shared/schema.ts declares on
`booking_reference`. -/
def uniqueReferences (db : DB) : Prop :=
  db.bookings.Pairwise fun a b => a.bookingReference ≠ b.bookingReference

/-- The bookings table after `confirmBookingPayment` is either unchanged or
the image of a per-row update that never touches the reference field. -/
theorem confirmBookingPayment_bookings (db : DB) (bid : Nat)
    (uid pg : String) :
    (confirmBookingPayment db bid uid pg).2.bookings = db.bookings ∨
    (confirmBookingPayment db bid uid pg).2.bookings =
      db.bookings.map fun x =>
        if x.id == bid && x.userId == uid then
          { x with
             status := "confirmed"
             paymentGatewayId := some pg
             paymentMethod := some "stripe" }
        else x := by
  cases hf : db.bookings.find? fun b => b.id == bid && b.userId == uid with
  | none => left; simp [confirmBookingPayment, hf]
  | some b => right; simp [confirmBookingPayment, hf]

/-- Each storage operation preserves reference uniqueness: `createBooking`
is the only insert into `bookings`, and the database rejects it when the
generated reference already exists; `confirmBookingPayment` rewrites rows
without touching the reference; nothing else writes the table. -/
theorem applyOp_uniqueReferences (db : DB) (op : StorageOp)
    (h : uniqueReferences db) : uniqueReferences (applyOp db op) := by
  cases op with
  | getUser i => exact h
  | upsertUser u =>
      show uniqueReferences (upsertUser db u)
      unfold upsertUser
      split <;> exact h
  | getRoutes => exact h
  | createRoute r => exact h
  | getBuses => exact h
  | createBus b => exact h
  | searchTrips o dd dt => exact h
  | getTripSeats t => exact h
  | createTrip t => exact h
  | getUserBookings u => exact h
  | createBooking data seats y m dd suffix =>
      show uniqueReferences (createBooking db data seats y m dd suffix).2
      unfold createBooking
      split
      · exact h
      · rename_i hfree
        show List.Pairwise _
          (db.bookings ++ [newBookingRecord db data y m dd suffix])
        rw [List.pairwise_append]
        refine ⟨h, by simp, ?_⟩
        intro a ha b hb
        rw [List.mem_singleton] at hb
        subst hb
        intro heq
        apply hfree
        show referenceTaken db
          (newBookingRecord db data y m dd suffix).bookingReference = true
        unfold referenceTaken
        rw [List.any_eq_true]
        exact ⟨a, ha, by rw [heq, beq_self_eq_true]⟩
  | getBookingById b u => exact h
  | getAllBookings => exact h
  | confirmBookingPayment bid uid pg =>
      show uniqueReferences (confirmBookingPayment db bid uid pg).2
      rcases confirmBookingPayment_bookings db bid uid pg with heq | heq
      · show List.Pairwise _ (confirmBookingPayment db bid uid pg).2.bookings
        rw [heq]
        exact h
      · show List.Pairwise _ (confirmBookingPayment db bid uid pg).2.bookings
        rw [heq, List.pairwise_map]
        refine h.imp ?_
        intro a b hab
        have hrefs : ∀ x : Booking,
            (if x.id == bid && x.userId == uid then
              ({ x with
                  status := "confirmed"
                  paymentGatewayId := some pg
                  paymentMethod := some "stripe" } : Booking)
            else x).bookingReference = x.bookingReference := by
          intro x
          split <;> rfl
        rw [hrefs a, hrefs b]
        exact hab
  | validatePromoCode c n => exact h
  | createPromotion p => exact h
  | getSocialLinks => exact h
  | getAdminStats => exact h

/-- Reference uniqueness is preserved by whole operation sequences. -/
theorem applyOps_uniqueReferences (ops : List StorageOp) (db : DB)
    (h : uniqueReferences db) : uniqueReferences (applyOps db ops) := by
  induction ops generalizing db with
  | nil => exact h
  | cons op rest ih => exact ih (applyOp db op) (applyOp_uniqueReferences db op h)

/-- C9. Every booking `createBooking` returns carries the documented
reference shape — prefix `HRM-`, creation date, dash, six-character random
suffix — and because the database rejects any insert whose generated
reference already exists (the UNIQUE constraint on `booking_reference`),
reference uniqueness is invariant: from any state with pairwise-distinct
references (such as the empty database), after any sequence of storage
operations two distinct persisted bookings never share a reference; rows
are never deleted, so references are never reused. -/
theorem C9_reference_format_unique (db : DB) (data : InsertBooking)
    (seats : List SeatSelection) (y m d : Nat) (suffix : String) (b : Booking)
    (hok : (createBooking db data seats y m d suffix).1 = Except.ok b)
    (db0 : DB) (ops : List StorageOp) (h0 : uniqueReferences db0) :
    b.bookingReference =
      "HRM-" ++ toString y ++ pad2 m ++ pad2 d ++ "-" ++ suffix ∧
    ∀ b1 ∈ (applyOps db0 ops).bookings, ∀ b2 ∈ (applyOps db0 ops).bookings,
      b1 ≠ b2 → b1.bookingReference ≠ b2.bookingReference := by
  constructor
  · unfold createBooking at hok
    split at hok
    · cases hok
    · cases hok
      rfl
  · intro b1 hb1 b2 hb2 hne
    exact List.Pairwise.forall (fun x y hxy => Ne.symm hxy)
      (applyOps_uniqueReferences ops db0 h0) hb1 hb2 hne

/-- Operation sequence building the two-booking scenario from the empty
initial state. -/
def opsW2 : List StorageOp :=
  [StorageOp.createBooking dataS1 [seatA1Alice] 2025 10 11 "AAAAAA",
   StorageOp.createBooking dataS2 [seatA1Bob] 2025 10 11 "BBBBBB"]

/-- C9 witness: the first concrete booking succeeds with the documented
reference shape, and in the state after both bookings the two distinct
persisted bookings have distinct references; all hypotheses discharged by
evaluation. -/
theorem C9_reference_format_unique_witness :
    bW1.bookingReference =
      "HRM-" ++ toString 2025 ++ pad2 10 ++ pad2 11 ++ "-" ++ "AAAAAA" ∧
    bW1.bookingReference ≠ bW2.bookingReference := by
  have h := C9_reference_format_unique dbW dataS1 [seatA1Alice] 2025 10 11
    "AAAAAA" bW1 rfl dbW opsW2 List.Pairwise.nil
  exact ⟨h.1, h.2 bW1 (by decide) bW2 (by decide) (by decide)⟩

/-- The database component returned by `confirmBookingPayment` keeps the
bookedSeats table unchanged in both the found and the not-found case. -/
theorem confirmBookingPayment_keeps_seats (db : DB) (bid : Nat)
    (uid pg : String) :
    (confirmBookingPayment db bid uid pg).2.bookedSeats = db.bookedSeats := by
  cases hf : db.bookings.find? fun b => b.id == bid && b.userId == uid <;>
    simp [confirmBookingPayment, hf]

/-- No storage operation removes a bookedSeats row: every row present
before an operation is present after it. -/
theorem applyOp_bookedSeats_mem (db : DB) (op : StorageOp) (s : BookedSeat)
    (h : s ∈ db.bookedSeats) : s ∈ (applyOp db op).bookedSeats := by
  cases op with
  | getUser i => exact h
  | upsertUser u =>
      show s ∈ (upsertUser db u).bookedSeats
      unfold upsertUser
      split <;> exact h
  | getRoutes => exact h
  | createRoute r => exact h
  | getBuses => exact h
  | createBus b => exact h
  | searchTrips o dd dt => exact h
  | getTripSeats t => exact h
  | createTrip t => exact h
  | getUserBookings u => exact h
  | createBooking data seats y m dd suffix =>
      show s ∈ (createBooking db data seats y m dd suffix).2.bookedSeats
      unfold createBooking
      split
      · exact h
      · exact List.mem_append_left _ h
  | getBookingById b u => exact h
  | getAllBookings => exact h
  | confirmBookingPayment bid uid pg =>
      show s ∈ (confirmBookingPayment db bid uid pg).2.bookedSeats
      rw [confirmBookingPayment_keeps_seats]
      exact h
  | validatePromoCode c n => exact h
  | createPromotion p => exact h
  | getSocialLinks => exact h
  | getAdminStats => exact h

/-- C10. Seat occupancy is monotone: across any sequence of storage-layer
operations, every seat row `getTripSeats` reports beforehand is still
reported afterwards — no operation deletes or releases a Seat Commitment. -/
theorem C10_seats_monotone (ops : List StorageOp) (db : DB) (tripId : Nat)
    (s : BookedSeat) (h : s ∈ getTripSeats db tripId) :
    s ∈ getTripSeats (applyOps db ops) tripId := by
  induction ops generalizing db with
  | nil => exact h
  | cons op rest ih =>
      rcases List.mem_filter.mp h with ⟨hmem, hpred⟩
      exact ih (applyOp db op)
        (List.mem_filter.mpr ⟨applyOp_bookedSeats_mem db op s hmem, hpred⟩)

/-- The seat row of the first booking of the concrete scenario. -/
def sW1 : BookedSeat :=
  { bookingId := 1, tripId := 2, seatNumber := "A1", passengerName := "Alice" }

/-- Concrete operation sequence. -/
def opsW : List StorageOp :=
  [StorageOp.createBooking dataS2 [seatA1Bob] 2025 10 11 "BBBBBB",
   StorageOp.confirmBookingPayment 1 "u1" "pay_9",
   StorageOp.getTripSeats 2]

/-- C10 witness: a committed seat row survives a further booking, a payment
confirmation and a read; the membership hypothesis is discharged by
evaluation. -/
theorem C10_seats_monotone_witness :
    sW1 ∈ getTripSeats dbB1 2 ∧
    sW1 ∈ getTripSeats (applyOps dbB1 opsW) 2 :=
  ⟨by decide, C10_seats_monotone opsW dbB1 2 sW1 (by decide)⟩

end Haramain
